import Mathlib

/-!
Shallow embedding of the digital-signature verification core of PDF4QT
(`src/PdfForQtLib/sources/pdfsignaturehandler.cpp`), together with theorems
checking the natural-language specification against it.

Machine integers (`PDFInteger`, `int`) are modelled as `Int`; `QByteArray`
as `List UInt8`; `QString` as `String`; fallible operations return `Option`.
OpenSSL primitives are external collaborators and enter the model only as
parameters (parse oracles, engine oracles) or as abstract event traces.
-/

namespace PdfForQt

/-! ## Certificate info data model (`PDFCertificateInfo`) -/

/-- Public key kind of a certificate (`PDFCertificateInfo::PublicKey`). -/
inductive PublicKeyType where
  | KeyRSA
  | KeyDSA
  | KeyDH
  | KeyEC
  | KeyUnknown
  deriving DecidableEq

/-- Distinguished-name entry keys of `PDFCertificateInfo::NameEntry`. -/
inductive NameEntry where
  | CountryName
  | OrganizationName
  | OrganizationalUnitName
  | DistinguishedName
  | StateOrProvinceName
  | CommonName
  | SerialNumber
  | LocalityName
  | Title
  | Surname
  | GivenName
  | Initials
  | Pseudonym
  | GenerationalQualifier
  | Email
  deriving DecidableEq

/-- Value type `PDFCertificateInfo`, with the fields serialized by
`PDFCertificateInfo::serialize`.  `QDateTime` values are modelled as epoch
seconds (the code builds them with `QDateTime::fromSecsSinceEpoch`), the
key-usage `QFlags` as a `Nat` bit set, and the DER bytes as `List UInt8`. -/
structure PDFCertificateInfo where
  version : Int := 0
  keySize : Int := 0
  publicKey : PublicKeyType := PublicKeyType.KeyUnknown
  nameEntries : List (NameEntry × String) := []
  notValidBefore : Int := 0
  notValidAfter : Int := 0
  keyUsage : Nat := 0
  certificateData : List UInt8 := []
  deriving DecidableEq

/-! ## Trust store (`PDFCertificateStore`) -/

/-- Entry type of a trust-store entry (`PDFCertificateStore::EntryType`). -/
inductive EntryType where
  | System
  | User
  deriving DecidableEq

/-- One trust-store entry (`PDFCertificateStore::CertificateEntry`). -/
structure CertificateEntry where
  type : EntryType
  info : PDFCertificateInfo
  deriving DecidableEq

/-- The trust store (`PDFCertificateStore`): a vector of entries. -/
structure PDFCertificateStore where
  certificates : List CertificateEntry := []
  deriving DecidableEq

/-- `PDFCertificateStore::add(EntryType, PDFCertificateInfo)`
(pdfsignaturehandler.cpp:1312-1321): scan with `std::find_if` for an entry
with equal `info`; push back when none is found; return `true`.  The returned
pair is (new store state, returned bool). -/
def PDFCertificateStore.add (s : PDFCertificateStore) (t : EntryType)
    (info : PDFCertificateInfo) : PDFCertificateStore × Bool :=
  if s.certificates.any (fun e => e.info == info) then
    (s, true)
  else
    ({ certificates := s.certificates ++ [{ type := t, info := info }] }, true)

/-- `PDFCertificateStore::add(EntryType, const QByteArray&)`
(pdfsignaturehandler.cpp:1302-1310): parse the DER bytes via
`PDFCertificateInfo::getCertificateInfo` and delegate to `add`; on parse
failure return `false` without touching the store.  The OpenSSL-based parse
(`d2i_X509` plus extraction) is external and is passed as the oracle
`parse`. -/
def PDFCertificateStore.addData (s : PDFCertificateStore)
    (parse : List UInt8 → Option PDFCertificateInfo) (t : EntryType)
    (certificate : List UInt8) : PDFCertificateStore × Bool :=
  match parse certificate with
  | some info => s.add t info
  | none => (s, false)

/-- `PDFCertificateStore::contains` (pdfsignaturehandler.cpp:1323-1326). -/
def PDFCertificateStore.containsInfo (s : PDFCertificateStore)
    (info : PDFCertificateInfo) : Bool :=
  s.certificates.any (fun e => e.info == info)

/-! ## Serialization (`QDataStream` layer)

`QDataStream` is an external Qt collaborator; it is modelled as a stream of
typed items, one item per `<<`/`>>` primitive call, so that the field order
and version handling of the repository's `serialize`/`deserialize` functions
are captured exactly. -/

/-- One primitive value written to / read from a `QDataStream`. -/
inductive StreamItem where
  | intItem (n : Int)
  | publicKeyItem (k : PublicKeyType)
  | nameEntriesItem (m : List (NameEntry × String))
  | dateTimeItem (t : Int)
  | keyUsageItem (u : Nat)
  | bytesItem (b : List UInt8)
  | entryTypeItem (t : EntryType)
  | countItem (n : Nat)
  deriving DecidableEq

/-- The `persist_version` constant written by every serializer (value 1). -/
def persistVersion : Int := 1

/-- Field part of `PDFCertificateInfo::serialize`
(pdfsignaturehandler.cpp:1124-1135), after the leading version integer. -/
def serializeInfoBody (info : PDFCertificateInfo) : List StreamItem :=
  [StreamItem.intItem info.version,
   StreamItem.intItem info.keySize,
   StreamItem.publicKeyItem info.publicKey,
   StreamItem.nameEntriesItem info.nameEntries,
   StreamItem.dateTimeItem info.notValidBefore,
   StreamItem.dateTimeItem info.notValidAfter,
   StreamItem.keyUsageItem info.keyUsage,
   StreamItem.bytesItem info.certificateData]

/-- `PDFCertificateInfo::serialize` (pdfsignaturehandler.cpp:1124-1135):
`persist_version` followed by the fields in declaration order. -/
def serializeInfo (info : PDFCertificateInfo) : List StreamItem :=
  StreamItem.intItem persistVersion :: serializeInfoBody info

/-- `PDFCertificateInfo::deserialize` (pdfsignaturehandler.cpp:1137-1149):
read a version integer into a local (its value is ignored), then the fields
in the same order.  Returns the decoded value and the unconsumed stream. -/
def deserializeInfo : List StreamItem → Option (PDFCertificateInfo × List StreamItem)
  | StreamItem.intItem _ :: StreamItem.intItem v :: StreamItem.intItem ks ::
    StreamItem.publicKeyItem pk :: StreamItem.nameEntriesItem ne ::
    StreamItem.dateTimeItem nb :: StreamItem.dateTimeItem na ::
    StreamItem.keyUsageItem ku :: StreamItem.bytesItem cd :: rest =>
      some ({ version := v, keySize := ks, publicKey := pk, nameEntries := ne,
              notValidBefore := nb, notValidAfter := na, keyUsage := ku,
              certificateData := cd }, rest)
  | _ => none

/-- `PDFCertificateStore::CertificateEntry::serialize`
(pdfsignaturehandler.cpp:1236-1241): version, entry type, then the info. -/
def serializeEntry (e : CertificateEntry) : List StreamItem :=
  StreamItem.intItem persistVersion :: StreamItem.entryTypeItem e.type ::
    serializeInfo e.info

/-- `PDFCertificateStore::CertificateEntry::deserialize`
(pdfsignaturehandler.cpp:1243-1249). -/
def deserializeEntry : List StreamItem → Option (CertificateEntry × List StreamItem)
  | StreamItem.intItem _ :: StreamItem.entryTypeItem t :: rest =>
      match deserializeInfo rest with
      | some (info, rest') => some ({ type := t, info := info }, rest')
      | none => none
  | _ => none

/-- Container decoding of `stream >> m_certificates`: read `n` entries. -/
def deserializeEntries : Nat → List StreamItem → Option (List CertificateEntry × List StreamItem)
  | 0, stream => some ([], stream)
  | n + 1, stream =>
      match deserializeEntry stream with
      | some (e, rest) =>
          match deserializeEntries n rest with
          | some (es, rest') => some (e :: es, rest')
          | none => none
      | none => none

/-- `PDFCertificateStore::serialize` (pdfsignaturehandler.cpp:1289-1293):
version, then the entry container (count followed by the entries, the Qt
container wire format). -/
def serializeStore (s : PDFCertificateStore) : List StreamItem :=
  StreamItem.intItem persistVersion ::
    StreamItem.countItem s.certificates.length ::
    s.certificates.flatMap serializeEntry

/-- `PDFCertificateStore::deserialize` (pdfsignaturehandler.cpp:1295-1300):
read and ignore a version integer, then the entry container. -/
def deserializeStore : List StreamItem → Option (PDFCertificateStore × List StreamItem)
  | StreamItem.intItem _ :: StreamItem.countItem n :: rest =>
      match deserializeEntries n rest with
      | some (es, rest') => some ({ certificates := es }, rest')
      | none => none
  | _ => none

/-! ## Verification result (`PDFSignatureVerificationResult`) -/

/-- Flags of `PDFSignatureVerificationResult::VerificationFlag`, exactly the
ones the source sets. -/
inductive VFlag where
  | OK
  | Certificate_OK
  | Signature_OK
  | Error_NoHandler
  | Error_Certificate_Invalid
  | Error_Certificate_NoSignatures
  | Error_Certificate_Missing
  | Error_Certificate_Generic
  | Error_Certificate_Expired
  | Error_Certificate_SelfSigned
  | Error_Certificate_SelfSignedChain
  | Error_Certificate_TrustedNotFound
  | Error_Certificate_Revoked
  | Error_Certificate_Other
  | Error_Signature_Invalid
  | Error_Signature_NoSignaturesFound
  | Error_Signature_SourceCertificateMissing
  | Error_Signature_DigestFailure
  | Error_Signature_DataOther
  | Error_Signature_DataCoveredBySignatureMissing
  | Warning_Signature_NotCoveredBytes
  deriving DecidableEq

/-- Localized messages appended to `m_errors` / `m_warnings`; one constructor
per `tr(...)` call site, with the interpolated arguments carried along. -/
inductive VMsg where
  | noHandler (format : String)
  | certificateInvalid
  | certificateNoSignatures
  | certificateMissing
  | certificateGeneric
  | certificateExpired
  | certificateSelfSigned
  | certificateSelfSignedChain
  | certificateTrustedNotFound
  | certificateRevoked
  | certificateOther (code : Int)
  | signatureInvalid
  | signatureNoSignaturesFound
  | signatureSourceCertificateMissing
  | signatureDigestFailure
  | signatureDataOther
  | signatureDataCoveredBySignatureMissing
  | signatureNotCoveredBytes (count : Int)
  deriving DecidableEq

/-- `PDFSignatureVerificationResult`: flag bit set (modelled as its indicator
function), error list, warning list, certificate infos, and the signature
field identifiers. -/
structure PDFSignatureVerificationResult where
  signatureFieldReference : Nat := 0
  signatureFieldQualifiedName : String := ""
  flags : VFlag → Bool := fun _ => false
  errors : List VMsg := []
  warnings : List VMsg := []
  certificateInfos : List PDFCertificateInfo := []

namespace PDFSignatureVerificationResult

/-- `m_flags.setFlag(f)` on a `QFlags` bit set. -/
def setFlag (r : PDFSignatureVerificationResult) (f : VFlag) :
    PDFSignatureVerificationResult :=
  { r with flags := fun g => if g = f then true else r.flags g }

/-- `m_flags.testFlag(f)`. -/
def hasFlag (r : PDFSignatureVerificationResult) (f : VFlag) : Bool :=
  r.flags f

/-- Common shape of the `add*Error` member functions: set the flag and append
the message to `m_errors`. -/
def addErrorFlag (r : PDFSignatureVerificationResult) (f : VFlag) (m : VMsg) :
    PDFSignatureVerificationResult :=
  { r with flags := fun g => if g = f then true else r.flags g,
           errors := r.errors ++ [m] }

/-- Common shape of the `add*Warning` member functions: set the flag and
append the message to `m_warnings`. -/
def addWarningFlag (r : PDFSignatureVerificationResult) (f : VFlag) (m : VMsg) :
    PDFSignatureVerificationResult :=
  { r with flags := fun g => if g = f then true else r.flags g,
           warnings := r.warnings ++ [m] }

/-- `addNoHandlerError` (pdfsignaturehandler.cpp:207-211). -/
def addNoHandlerError (r : PDFSignatureVerificationResult) (format : String) :
    PDFSignatureVerificationResult :=
  r.addErrorFlag VFlag.Error_NoHandler (VMsg.noHandler format)

/-- `addInvalidCertificateError` (pdfsignaturehandler.cpp:213-217). -/
def addInvalidCertificateError (r : PDFSignatureVerificationResult) :
    PDFSignatureVerificationResult :=
  r.addErrorFlag VFlag.Error_Certificate_Invalid VMsg.certificateInvalid

/-- `addNoSignaturesError` (pdfsignaturehandler.cpp:219-223). -/
def addNoSignaturesError (r : PDFSignatureVerificationResult) :
    PDFSignatureVerificationResult :=
  r.addErrorFlag VFlag.Error_Certificate_NoSignatures VMsg.certificateNoSignatures

/-- `addCertificateMissingError` (pdfsignaturehandler.cpp:225-229). -/
def addCertificateMissingError (r : PDFSignatureVerificationResult) :
    PDFSignatureVerificationResult :=
  r.addErrorFlag VFlag.Error_Certificate_Missing VMsg.certificateMissing

/-- `addCertificateGenericError` (pdfsignaturehandler.cpp:231-235). -/
def addCertificateGenericError (r : PDFSignatureVerificationResult) :
    PDFSignatureVerificationResult :=
  r.addErrorFlag VFlag.Error_Certificate_Generic VMsg.certificateGeneric

/-- `addCertificateExpiredError` (pdfsignaturehandler.cpp:237-241). -/
def addCertificateExpiredError (r : PDFSignatureVerificationResult) :
    PDFSignatureVerificationResult :=
  r.addErrorFlag VFlag.Error_Certificate_Expired VMsg.certificateExpired

/-- `addCertificateSelfSignedError` (pdfsignaturehandler.cpp:243-247). -/
def addCertificateSelfSignedError (r : PDFSignatureVerificationResult) :
    PDFSignatureVerificationResult :=
  r.addErrorFlag VFlag.Error_Certificate_SelfSigned VMsg.certificateSelfSigned

/-- `addCertificateSelfSignedInChainError` (pdfsignaturehandler.cpp:249-253). -/
def addCertificateSelfSignedInChainError (r : PDFSignatureVerificationResult) :
    PDFSignatureVerificationResult :=
  r.addErrorFlag VFlag.Error_Certificate_SelfSignedChain VMsg.certificateSelfSignedChain

/-- `addCertificateTrustedNotFoundError` (pdfsignaturehandler.cpp:255-259). -/
def addCertificateTrustedNotFoundError (r : PDFSignatureVerificationResult) :
    PDFSignatureVerificationResult :=
  r.addErrorFlag VFlag.Error_Certificate_TrustedNotFound VMsg.certificateTrustedNotFound

/-- `addCertificateRevokedError` (pdfsignaturehandler.cpp:261-265). -/
def addCertificateRevokedError (r : PDFSignatureVerificationResult) :
    PDFSignatureVerificationResult :=
  r.addErrorFlag VFlag.Error_Certificate_Revoked VMsg.certificateRevoked

/-- `addCertificateOtherError` (pdfsignaturehandler.cpp:267-271). -/
def addCertificateOtherError (r : PDFSignatureVerificationResult) (code : Int) :
    PDFSignatureVerificationResult :=
  r.addErrorFlag VFlag.Error_Certificate_Other (VMsg.certificateOther code)

/-- `addInvalidSignatureError` (pdfsignaturehandler.cpp:273-277). -/
def addInvalidSignatureError (r : PDFSignatureVerificationResult) :
    PDFSignatureVerificationResult :=
  r.addErrorFlag VFlag.Error_Signature_Invalid VMsg.signatureInvalid

/-- `addSignatureNoSignaturesFoundError` (pdfsignaturehandler.cpp:279-283). -/
def addSignatureNoSignaturesFoundError (r : PDFSignatureVerificationResult) :
    PDFSignatureVerificationResult :=
  r.addErrorFlag VFlag.Error_Signature_NoSignaturesFound VMsg.signatureNoSignaturesFound

/-- `addSignatureCertificateMissingError` (pdfsignaturehandler.cpp:285-289). -/
def addSignatureCertificateMissingError (r : PDFSignatureVerificationResult) :
    PDFSignatureVerificationResult :=
  r.addErrorFlag VFlag.Error_Signature_SourceCertificateMissing
    VMsg.signatureSourceCertificateMissing

/-- `addSignatureDigestFailureError` (pdfsignaturehandler.cpp:291-295). -/
def addSignatureDigestFailureError (r : PDFSignatureVerificationResult) :
    PDFSignatureVerificationResult :=
  r.addErrorFlag VFlag.Error_Signature_DigestFailure VMsg.signatureDigestFailure

/-- `addSignatureDataOtherError` (pdfsignaturehandler.cpp:297-301). -/
def addSignatureDataOtherError (r : PDFSignatureVerificationResult) :
    PDFSignatureVerificationResult :=
  r.addErrorFlag VFlag.Error_Signature_DataOther VMsg.signatureDataOther

/-- `addSignatureDataCoveredBySignatureMissingError`
(pdfsignaturehandler.cpp:303-307). -/
def addSignatureDataCoveredBySignatureMissingError
    (r : PDFSignatureVerificationResult) : PDFSignatureVerificationResult :=
  r.addErrorFlag VFlag.Error_Signature_DataCoveredBySignatureMissing
    VMsg.signatureDataCoveredBySignatureMissing

/-- `addSignatureNotCoveredBytesWarning` (pdfsignaturehandler.cpp:309-313). -/
def addSignatureNotCoveredBytesWarning (r : PDFSignatureVerificationResult)
    (count : Int) : PDFSignatureVerificationResult :=
  r.addWarningFlag VFlag.Warning_Signature_NotCoveredBytes
    (VMsg.signatureNotCoveredBytes count)

/-- `addCertificateInfo`: append one certificate info record. -/
def addCertificateInfo (r : PDFSignatureVerificationResult)
    (info : PDFCertificateInfo) : PDFSignatureVerificationResult :=
  { r with certificateInfos := r.certificateInfos ++ [info] }

/-- The certificate-group error flags (spec section 7, certificate group). -/
def certErrorFlags : List VFlag :=
  [VFlag.Error_Certificate_Invalid, VFlag.Error_Certificate_NoSignatures,
   VFlag.Error_Certificate_Missing, VFlag.Error_Certificate_Generic,
   VFlag.Error_Certificate_Expired, VFlag.Error_Certificate_SelfSigned,
   VFlag.Error_Certificate_SelfSignedChain, VFlag.Error_Certificate_TrustedNotFound,
   VFlag.Error_Certificate_Revoked, VFlag.Error_Certificate_Other]

/-- The signature-group error flags (spec section 7, signature group). -/
def sigErrorFlags : List VFlag :=
  [VFlag.Error_Signature_Invalid, VFlag.Error_Signature_NoSignaturesFound,
   VFlag.Error_Signature_SourceCertificateMissing, VFlag.Error_Signature_DigestFailure,
   VFlag.Error_Signature_DataOther, VFlag.Error_Signature_DataCoveredBySignatureMissing]

/-- Modelled from the spec: `hasCertificateError` is declared in
`pdfsignaturehandler.h`, which is not under `src/`; per the spec's error
taxonomy (section 7) it tests the certificate-group error bits. -/
def hasCertificateError (r : PDFSignatureVerificationResult) : Bool :=
  certErrorFlags.any r.flags

/-- Modelled from the spec: `hasSignatureError` is declared in
`pdfsignaturehandler.h`, which is not under `src/`; per the spec's error
taxonomy (section 7) it tests the signature-group error bits. -/
def hasSignatureError (r : PDFSignatureVerificationResult) : Bool :=
  sigErrorFlags.any r.flags

/-- Modelled from the spec: `isCertificateValid` is declared in
`pdfsignaturehandler.h` (not under `src/`); it tests the `Certificate_OK`
flag, which per spec section 4.E is set exactly when the certificate phase
recorded no certificate-group error. -/
def isCertificateValid (r : PDFSignatureVerificationResult) : Bool :=
  r.flags VFlag.Certificate_OK

/-- Modelled from the spec: `isSignatureValid` is declared in
`pdfsignaturehandler.h` (not under `src/`); it tests the `Signature_OK`
flag. -/
def isSignatureValid (r : PDFSignatureVerificationResult) : Bool :=
  r.flags VFlag.Signature_OK

/-- `PDFSignatureVerificationResult::validate`
(pdfsignaturehandler.cpp:325-331): set `OK` when both sub-validity flags
hold. -/
def validate (r : PDFSignatureVerificationResult) :
    PDFSignatureVerificationResult :=
  if r.isCertificateValid && r.isSignatureValid then r.setFlag VFlag.OK else r

end PDFSignatureVerificationResult

/-- Fresh result carrying the signature field identifiers, as built by the
engines' `initializeResult` (pdfsignaturehandler.cpp:333-339). -/
def initResult (ref : Nat) (name : String) : PDFSignatureVerificationResult :=
  { signatureFieldReference := ref, signatureFieldQualifiedName := name }

/-! ## Engine traces

The two phases of an engine (`verifyCertificate` / `verifySignature` and
their RSA counterparts) interleave OpenSSL calls with mutations of the
result.  The OpenSSL outcomes are external; what each phase can do to the
result is fixed by the source: a set of `add*` calls drawn from its phase's
vocabulary, followed by setting the phase's `_OK` flag when no error of that
group was recorded (pdfsignaturehandler.cpp:491-495, 667-671, 890-894,
976-979).  A phase is therefore modelled as an arbitrary list of operations
from its vocabulary. -/

/-- One mutation of the verification result performed by an engine phase. -/
inductive ResultOp where
  | opCertificateInvalid
  | opCertificateNoSignatures
  | opCertificateMissing
  | opCertificateGeneric
  | opCertificateExpired
  | opCertificateSelfSigned
  | opCertificateSelfSignedChain
  | opCertificateTrustedNotFound
  | opCertificateRevoked
  | opCertificateOther (code : Int)
  | opAddCertificateInfo (info : PDFCertificateInfo)
  | opSignatureInvalid
  | opSignatureNoSignaturesFound
  | opSignatureSourceCertificateMissing
  | opSignatureDigestFailure
  | opSignatureDataOther
  | opSignatureDataCoveredBySignatureMissing
  | opWarnNotCoveredBytes (n : Int)
  deriving DecidableEq

/-- Apply one operation: each constructor maps to the corresponding `add*`
member function of the source. -/
def applyOp (r : PDFSignatureVerificationResult) : ResultOp →
    PDFSignatureVerificationResult
  | ResultOp.opCertificateInvalid => r.addInvalidCertificateError
  | ResultOp.opCertificateNoSignatures => r.addNoSignaturesError
  | ResultOp.opCertificateMissing => r.addCertificateMissingError
  | ResultOp.opCertificateGeneric => r.addCertificateGenericError
  | ResultOp.opCertificateExpired => r.addCertificateExpiredError
  | ResultOp.opCertificateSelfSigned => r.addCertificateSelfSignedError
  | ResultOp.opCertificateSelfSignedChain => r.addCertificateSelfSignedInChainError
  | ResultOp.opCertificateTrustedNotFound => r.addCertificateTrustedNotFoundError
  | ResultOp.opCertificateRevoked => r.addCertificateRevokedError
  | ResultOp.opCertificateOther code => r.addCertificateOtherError code
  | ResultOp.opAddCertificateInfo info => r.addCertificateInfo info
  | ResultOp.opSignatureInvalid => r.addInvalidSignatureError
  | ResultOp.opSignatureNoSignaturesFound => r.addSignatureNoSignaturesFoundError
  | ResultOp.opSignatureSourceCertificateMissing => r.addSignatureCertificateMissingError
  | ResultOp.opSignatureDigestFailure => r.addSignatureDigestFailureError
  | ResultOp.opSignatureDataOther => r.addSignatureDataOtherError
  | ResultOp.opSignatureDataCoveredBySignatureMissing =>
      r.addSignatureDataCoveredBySignatureMissingError
  | ResultOp.opWarnNotCoveredBytes n => r.addSignatureNotCoveredBytesWarning n

/-- The flag an operation sets, if any. -/
def opFlagOf : ResultOp → Option VFlag
  | ResultOp.opCertificateInvalid => some VFlag.Error_Certificate_Invalid
  | ResultOp.opCertificateNoSignatures => some VFlag.Error_Certificate_NoSignatures
  | ResultOp.opCertificateMissing => some VFlag.Error_Certificate_Missing
  | ResultOp.opCertificateGeneric => some VFlag.Error_Certificate_Generic
  | ResultOp.opCertificateExpired => some VFlag.Error_Certificate_Expired
  | ResultOp.opCertificateSelfSigned => some VFlag.Error_Certificate_SelfSigned
  | ResultOp.opCertificateSelfSignedChain => some VFlag.Error_Certificate_SelfSignedChain
  | ResultOp.opCertificateTrustedNotFound => some VFlag.Error_Certificate_TrustedNotFound
  | ResultOp.opCertificateRevoked => some VFlag.Error_Certificate_Revoked
  | ResultOp.opCertificateOther _ => some VFlag.Error_Certificate_Other
  | ResultOp.opAddCertificateInfo _ => none
  | ResultOp.opSignatureInvalid => some VFlag.Error_Signature_Invalid
  | ResultOp.opSignatureNoSignaturesFound => some VFlag.Error_Signature_NoSignaturesFound
  | ResultOp.opSignatureSourceCertificateMissing =>
      some VFlag.Error_Signature_SourceCertificateMissing
  | ResultOp.opSignatureDigestFailure => some VFlag.Error_Signature_DigestFailure
  | ResultOp.opSignatureDataOther => some VFlag.Error_Signature_DataOther
  | ResultOp.opSignatureDataCoveredBySignatureMissing =>
      some VFlag.Error_Signature_DataCoveredBySignatureMissing
  | ResultOp.opWarnNotCoveredBytes _ => some VFlag.Warning_Signature_NotCoveredBytes

/-- Mutations the certificate phase can perform (`verifyCertificate`,
`verifyRSACertificate`): certificate-group errors and certificate infos. -/
def certPhaseOp : ResultOp → Bool
  | ResultOp.opCertificateInvalid => true
  | ResultOp.opCertificateNoSignatures => true
  | ResultOp.opCertificateMissing => true
  | ResultOp.opCertificateGeneric => true
  | ResultOp.opCertificateExpired => true
  | ResultOp.opCertificateSelfSigned => true
  | ResultOp.opCertificateSelfSignedChain => true
  | ResultOp.opCertificateTrustedNotFound => true
  | ResultOp.opCertificateRevoked => true
  | ResultOp.opCertificateOther _ => true
  | ResultOp.opAddCertificateInfo _ => true
  | _ => false

/-- Mutations the signature phase can perform (`verifySignature`,
`verifyRSASignature`, including `getSignedDataBuffer`): signature-group
errors and the not-covered-bytes warning. -/
def sigPhaseOp : ResultOp → Bool
  | ResultOp.opSignatureInvalid => true
  | ResultOp.opSignatureNoSignaturesFound => true
  | ResultOp.opSignatureSourceCertificateMissing => true
  | ResultOp.opSignatureDigestFailure => true
  | ResultOp.opSignatureDataOther => true
  | ResultOp.opSignatureDataCoveredBySignatureMissing => true
  | ResultOp.opWarnNotCoveredBytes _ => true
  | _ => false

/-- Apply a list of operations left to right. -/
def applyOps (ops : List ResultOp) (r : PDFSignatureVerificationResult) :
    PDFSignatureVerificationResult :=
  ops.foldl applyOp r

/-- The shared engine recipe (`verify` of the three handlers,
pdfsignaturehandler.cpp:673-681, 683-693, 982-990): initialize, certificate
phase ending with `Certificate_OK` when no certificate error was recorded
(pdfsignaturehandler.cpp:491-495, 890-894), signature phase ending with
`Signature_OK` when no signature error was recorded
(pdfsignaturehandler.cpp:667-671, 976-979), then `validate()`. -/
def runEngine (certOps sigOps : List ResultOp)
    (r0 : PDFSignatureVerificationResult) : PDFSignatureVerificationResult :=
  let r1 := applyOps certOps r0
  let r2 := if r1.hasCertificateError then r1 else r1.setFlag VFlag.Certificate_OK
  let r3 := applyOps sigOps r2
  let r4 := if r3.hasSignatureError then r3 else r3.setFlag VFlag.Signature_OK
  r4.validate

/-! ## Signature record and byte-range assembler -/

/-- One `(offset, length)` pair of the `ByteRange` array
(`PDFSignature::ByteRange`). -/
structure ByteRange where
  offset : Int
  size : Int
  deriving DecidableEq

/-- The fields of `PDFSignature` used by the verification engines.  The
remaining metadata fields (name, dates, reasons, ...) play no role in the
claims under scrutiny and are omitted. -/
structure PDFSignature where
  subfilter : String := ""
  contents : List UInt8 := []
  certificates : Option (List (List UInt8)) := none
  byteRanges : List ByteRange := []

/-- Modelled from the spec: `PDFClosedIntervalSet` lives in `pdfutils.h/cpp`,
which is not under `src/`.  Per spec section 4.D it is a set of closed
integer intervals merged into a coverage set; it is modelled as the list of
added intervals, with the derived ones computing over the union of points. -/
def ClosedIntervalSet := List (Int × Int)

/-- Modelled from the spec: `PDFClosedIntervalSet::addInterval` records the
closed interval `[a, b]` in the set. -/
def addInterval (s : ClosedIntervalSet) (a b : Int) : ClosedIntervalSet :=
  (a, b) :: s

/-- The set of integer points covered by the union of the intervals. -/
def coveredPoints (s : ClosedIntervalSet) : Finset Int :=
  s.foldr (fun p acc => Finset.Icc p.1 p.2 ∪ acc) ∅

/-- Modelled from the spec: `PDFClosedIntervalSet::isCovered(a, b)` decides
whether the merged coverage set covers the whole closed interval `[a, b]`. -/
def isCovered (s : ClosedIntervalSet) (a b : Int) : Bool :=
  decide (Finset.Icc a b ⊆ coveredPoints s)

/-- Modelled from the spec: `PDFClosedIntervalSet::getTotalLength` is the
total covered length of the merged coverage interval set, i.e. the number of
integer points in the union. -/
def getTotalLength (s : ClosedIntervalSet) : Int :=
  ((coveredPoints s).card : Int)

/-- `F.mid(s, e - s)`: the bytes of `F` from offset `s` (inclusive) to `e`
(exclusive). -/
def sliceOf (F : List UInt8) (s e : Int) : List UInt8 :=
  (F.drop s.toNat).take (e - s).toNat

/-- Lower-case hex digit of a value below 16, as an ASCII byte. -/
def hexDigitLower (n : Nat) : UInt8 :=
  if n < 10 then UInt8.ofNat (48 + n) else UInt8.ofNat (87 + n)

/-- `QByteArray::toHex()`: two lower-case hex digits per byte. -/
def toHexLower (bytes : List UInt8) : List UInt8 :=
  bytes.flatMap (fun b => [hexDigitLower (b.toNat / 16), hexDigitLower (b.toNat % 16)])

/-- `QByteArray::toUpper()` on Latin-1 bytes. -/
def byteToUpper (b : UInt8) : UInt8 :=
  if 97 ≤ b.toNat ∧ b.toNat ≤ 122 then UInt8.ofNat (b.toNat - 32) else b

/-- Whether `pat` occurs at the head of `hay`. -/
def matchesAt : List UInt8 → List UInt8 → Bool
  | _, [] => true
  | [], _ :: _ => false
  | h :: hs, p :: ps => h == p && matchesAt hs ps

/-- `QByteArray::indexOf`: offset of the first occurrence of `pat` in `hay`,
or `-1` when there is none (the empty pattern matches at offset 0). -/
def byteIndexOf (hay pat : List UInt8) : Int :=
  if matchesAt hay pat then 0
  else
    match hay with
    | [] => -1
    | _ :: hs =>
        let r := byteIndexOf hs pat
        if r < 0 then -1 else r + 1

/-- Read the byte of `F` at (int) position `i`, when in range. -/
def byteAt (F : List UInt8) (i : Int) : Option UInt8 :=
  if 0 ≤ i ∧ i < (F.length : Int) then F.get? i.toNat else none

/-- The validation loop over the byte ranges
(pdfsignaturehandler.cpp:520-540): skip zero-length ranges; fail when a range
does not fit inside the file; otherwise append the covered bytes to the
output buffer and record the interval.  Returns `none` on failure. -/
def processRanges (F : List UInt8) :
    List ByteRange → List UInt8 → ClosedIntervalSet →
    Option (List UInt8 × ClosedIntervalSet)
  | [], buf, cov => some (buf, cov)
  | br :: rest, buf, cov =>
      let startOffset := br.offset
      let endOffset := br.offset + br.size
      if startOffset = endOffset then
        processRanges F rest buf cov
      else if startOffset > endOffset ∨ startOffset < 0 ∨ endOffset < 0 ∨
          startOffset ≥ (F.length : Int) ∨ endOffset > (F.length : Int) then
        none
      else
        processRanges F rest (buf ++ sliceOf F startOffset endOffset)
          (addInterval cov startOffset (endOffset - 1))

/-- The hex-contents search of `getSignedDataBuffer`
(pdfsignaturehandler.cpp:542-565): find the hex encoding of `contents` in the
file (exact match first, then upper case), widen by the `<` and `>`
delimiters when present, and record the resulting interval. -/
def hexSearchCoverage (F contents : List UInt8) (cov : ClosedIntervalSet) :
    ClosedIntervalSet :=
  let hexContents := toHexLower contents
  let index0 := byteIndexOf F hexContents
  let index := if index0 = -1 then byteIndexOf F (hexContents.map byteToUpper) else index0
  if index ≠ -1 then
    let firstByteIndex0 := index
    let lastByteIndex0 := index + (hexContents.length : Int) - 1
    let firstByteIndex :=
      if firstByteIndex0 > 0 ∧ byteAt F (firstByteIndex0 - 1) = some 60 then
        firstByteIndex0 - 1
      else firstByteIndex0
    let lastByteIndex :=
      if lastByteIndex0 + 1 < (F.length : Int) ∧ byteAt F (lastByteIndex0 + 1) = some 62 then
        lastByteIndex0 + 1
      else lastByteIndex0
    addInterval cov firstByteIndex lastByteIndex
  else cov

/-- `PDFPublicKeySignatureHandler::getSignedDataBuffer`
(pdfsignaturehandler.cpp:497-575).  The returned pair is (result after the
call, the assembled buffer, or `none` when the source returns `nullptr`). -/
def getSignedDataBuffer (F : List UInt8) (sig : PDFSignature)
    (result : PDFSignatureVerificationResult) :
    PDFSignatureVerificationResult × Option (List UInt8) :=
  let size := (sig.byteRanges.map (fun br => br.size)).sum
  if size > (F.length : Int) then
    (result.addSignatureDataCoveredBySignatureMissingError, none)
  else
    match processRanges F sig.byteRanges [] [] with
    | none => (result.addSignatureDataCoveredBySignatureMissingError, none)
    | some (buf, cov) =>
        let cov2 := hexSearchCoverage F sig.contents cov
        let result2 :=
          if isCovered cov2 0 ((F.length : Int) - 1) then result
          else
            result.addSignatureNotCoveredBytesWarning
              ((F.length : Int) - getTotalLength cov2)
        (result2, some buf)

/-! ## Form traversal and dispatch (`PDFSignatureHandler::verifySignatures`) -/

/-- Form field types; only `Signature` is filtered for
(pdfsignaturehandler.cpp:176). -/
inductive FieldType where
  | Text
  | Button
  | Choice
  | Signature
  deriving DecidableEq

/-- The view of a form field that `verifySignatures` uses: its type, its self
reference, its fully qualified name, and (for signature fields) the parsed
signature dictionary. -/
structure PDFFormField where
  fieldType : FieldType
  selfReference : Nat
  qualifiedName : String
  signature : PDFSignature

/-- Form type: `form.isAcroForm() || form.isXFAForm()` gates verification. -/
inductive FormType where
  | NoForm
  | AcroForm
  | XFAForm
  deriving DecidableEq

/-- The form view: its type and the fields its `apply` visitor enumerates, in
enumeration order. -/
structure PDFForm where
  formType : FormType
  fields : List PDFFormField

def PDFForm.isAcroForm (form : PDFForm) : Bool :=
  form.formType == FormType.AcroForm

def PDFForm.isXFAForm (form : PDFForm) : Bool :=
  form.formType == FormType.XFAForm

/-- Verification parameters (`PDFSignatureHandler::Parameters`). -/
structure Parameters where
  store : Option PDFCertificateStore := none
  enableVerification : Bool := true
  ignoreExpirationDate : Bool := false
  useSystemCertificateStore : Bool := true

/-- The three engine variants created by `createHandler`. -/
inductive HandlerKind where
  | detachedHandler
  | sha1Handler
  | rsaSha1Handler
  deriving DecidableEq

/-- `PDFSignatureHandler::createHandler` (pdfsignaturehandler.cpp:146-165):
dispatch on the signature's subfilter; `none` models the `nullptr` return. -/
def createHandler (subfilter : String) : Option HandlerKind :=
  if subfilter = "adbe.pkcs7.detached" then some HandlerKind.detachedHandler
  else if subfilter = "adbe.pkcs7.sha1" then some HandlerKind.sha1Handler
  else if subfilter = "adbe.x509.rsa_sha1" then some HandlerKind.rsaSha1Handler
  else none

/-- Processing of one signature field inside the loop of `verifySignatures`
(pdfsignaturehandler.cpp:186-201): run the handler's engine when one exists,
otherwise build a result carrying `Error_NoHandler`.  The engines' behavior
depends on OpenSSL and the file bytes; it enters as the oracle `ev`. -/
def verifyField (ev : HandlerKind → PDFFormField → PDFSignatureVerificationResult)
    (f : PDFFormField) : PDFSignatureVerificationResult :=
  match createHandler f.signature.subfilter with
  | some kind => ev kind f
  | none =>
      (initResult f.selfReference f.qualifiedName).addNoHandlerError
        f.signature.subfilter

/-- `PDFSignatureHandler::verifySignatures` (pdfsignaturehandler.cpp:167-205):
when verification is enabled and the form is an AcroForm or XFA form, collect
the signature fields the form enumerates and emplace one verification result
per field; otherwise return the empty vector. -/
def verifySignatures
    (ev : HandlerKind → PDFFormField → PDFSignatureVerificationResult)
    (form : PDFForm) (parameters : Parameters) :
    List PDFSignatureVerificationResult :=
  if parameters.enableVerification && (form.isAcroForm || form.isXFAForm) then
    let signatureFields :=
      form.fields.filter (fun f => f.fieldType == FieldType.Signature)
    signatureFields.foldl (fun acc f => acc ++ [verifyField ev f]) []
  else []

/-! ## Concrete values used by witnesses and counterexamples -/

/-- A concrete certificate info value. -/
def info0 : PDFCertificateInfo :=
  { version := 1, keySize := 2048, publicKey := PublicKeyType.KeyRSA,
    nameEntries := [(NameEntry.CommonName, "Test")], notValidBefore := 0,
    notValidAfter := 1000000, keyUsage := 1, certificateData := [48, 1, 2] }

/-- A store already holding `info0`. -/
def oneStore : PDFCertificateStore :=
  { certificates := [{ type := EntryType.User, info := info0 }] }

/-- A concrete signature form field with a PKCS#7 detached signature. -/
def field0 : PDFFormField :=
  { fieldType := FieldType.Signature, selfReference := 7,
    qualifiedName := "SigField",
    signature := { subfilter := "adbe.pkcs7.detached" } }

/-- A concrete non-signature form field. -/
def fieldT : PDFFormField :=
  { fieldType := FieldType.Text, selfReference := 8, qualifiedName := "T",
    signature := {} }

/-- A concrete AcroForm holding one signature field and one text field. -/
def form0 : PDFForm :=
  { formType := FormType.AcroForm, fields := [field0, fieldT] }

/-- Default parameters (verification enabled). -/
def params0 : Parameters := {}

/-- Parameters with verification disabled. -/
def paramsOff : Parameters := { enableVerification := false }

/-- A concrete engine oracle for witnesses. -/
def ev0 : HandlerKind → PDFFormField → PDFSignatureVerificationResult :=
  fun _ f => initResult f.selfReference f.qualifiedName

/-- A two-byte file. -/
def fileC3 : List UInt8 := [5, 6]

/-- A signature whose single byte range covers `fileC3` completely. -/
def sigC3 : PDFSignature := { contents := [171], byteRanges := [⟨0, 2⟩] }

/-- A four-byte file. -/
def fileC4 : List UInt8 := [1, 2, 3, 4]

/-- A signature whose single byte range covers only half of `fileC4`. -/
def sigC4 : PDFSignature := { contents := [171], byteRanges := [⟨0, 2⟩] }

/-- A signature whose byte range extends past the end of `fileC3`. -/
def sigC5 : PDFSignature := { contents := [171], byteRanges := [⟨0, 5⟩] }

/-! # Theorems -/

/-! ## Helper lemmas -/

/-- Folding `emplace_back` over a list builds the mapped list. -/
theorem foldl_emplace_eq_map {α β : Type} (g : α → β) (l : List α)
    (init : List β) :
    l.foldl (fun acc f => acc ++ [g f]) init = init ++ l.map g := by
  induction l generalizing init with
  | nil => simp
  | cons a l ih => simp [ih]

/-- Decoding right after encoding one certificate info consumes exactly the
encoding. -/
theorem des_info_append (info : PDFCertificateInfo) (rest : List StreamItem) :
    deserializeInfo (serializeInfo info ++ rest) = some (info, rest) := rfl

/-- Decoding right after encoding one store entry consumes exactly the
encoding. -/
theorem des_entry_append (e : CertificateEntry) (rest : List StreamItem) :
    deserializeEntry (serializeEntry e ++ rest) = some (e, rest) := rfl

/-- Decoding `n` entries after encoding an `n`-entry list recovers the
list. -/
theorem des_entries (es : List CertificateEntry) (rest : List StreamItem) :
    deserializeEntries es.length (es.flatMap serializeEntry ++ rest) =
      some (es, rest) := by
  induction es generalizing rest with
  | nil => rfl
  | cons e es ih =>
      have h1 : (e :: es).flatMap serializeEntry ++ rest =
          serializeEntry e ++ (es.flatMap serializeEntry ++ rest) := by
        simp
      rw [List.length_cons, h1]
      simp only [deserializeEntries, des_entry_append, ih]

/-! ## C2: trust-store `add` return value -/

/-- C2 (counterexample): on a store that already holds `info0`,
`PDFCertificateStore::add` returns `true` although nothing was appended, so
the return value is not "whether the logical set changed". -/
theorem store_add_return_counterexample :
    ¬ (((oneStore.add EntryType.User info0).2 = true) ↔
       ((oneStore.add EntryType.User info0).1.certificates.length =
        oneStore.certificates.length + 1)) := by
  decide

/-- C2 (amended): `add(type, info)` appends a new entry exactly when no
existing entry has equal `info`, and its return value is always `true` (it
does not report whether the logical set changed). -/
theorem store_add_appends_iff_new (s : PDFCertificateStore) (t : EntryType)
    (i : PDFCertificateInfo) :
    (s.add t i).2 = true ∧
    ((¬ ∃ e ∈ s.certificates, e.info = i) →
      (s.add t i).1.certificates = s.certificates ++ [{ type := t, info := i }]) ∧
    ((∃ e ∈ s.certificates, e.info = i) → (s.add t i).1 = s) := by
  refine ⟨?_, ?_, ?_⟩
  · unfold PDFCertificateStore.add
    split <;> rfl
  · intro h
    have hany : s.certificates.any (fun e => e.info == i) = false := by
      rw [Bool.eq_false_iff]
      intro hc
      exact h (by simpa [List.any_eq_true] using hc)
    simp [PDFCertificateStore.add, hany]
  · intro h
    have hany : s.certificates.any (fun e => e.info == i) = true := by
      simpa [List.any_eq_true] using h
    simp [PDFCertificateStore.add, hany]

/-- C2 (witness): adding `info0` to the empty store returns `true` and
appends the entry. -/
theorem store_add_appends_iff_new_witness :
    ((PDFCertificateStore.mk []).add EntryType.User info0).2 = true ∧
    ((PDFCertificateStore.mk []).add EntryType.User info0).1.certificates =
      [{ type := EntryType.User, info := info0 }] :=
  ⟨(store_add_appends_iff_new ⟨[]⟩ EntryType.User info0).1,
   (store_add_appends_iff_new ⟨[]⟩ EntryType.User info0).2.1 (by simp)⟩

/-! ## C8: trust-store insertion idempotence -/

/-- C8: on any store holding at most one entry with the given info (every
store maintained through `add` does, by deduplication), adding the same info
twice leaves exactly one entry with that info. -/
theorem store_add_idempotent (s : PDFCertificateStore) (t : EntryType)
    (i : PDFCertificateInfo)
    (h : s.certificates.countP (fun e => e.info == i) ≤ 1) :
    (((s.add t i).1.add t i).1).certificates.countP (fun e => e.info == i) = 1 := by
  by_cases hany : s.certificates.any (fun e => e.info == i) = true
  · have h1 : (s.add t i).1 = s := by simp [PDFCertificateStore.add, hany]
    rw [h1, h1]
    have hpos : 0 < s.certificates.countP (fun e => e.info == i) := by
      rw [List.countP_pos_iff]
      simpa [List.any_eq_true] using hany
    omega
  · have h1 : (s.add t i).1 =
        ⟨s.certificates ++ [{ type := t, info := i }]⟩ := by
      simp [PDFCertificateStore.add, hany]
    have hmem : (s.certificates ++ [({ type := t, info := i } : CertificateEntry)]).any
        (fun e => e.info == i) = true := by
      simp
    have h2 : ((s.add t i).1.add t i).1 = (s.add t i).1 := by
      rw [h1]
      simp [PDFCertificateStore.add, hmem]
    rw [h2, h1]
    have hzero : s.certificates.countP (fun e => e.info == i) = 0 := by
      rw [List.countP_eq_zero]
      intro a ha
      intro hc
      exact hany (List.any_eq_true.mpr ⟨a, ha, hc⟩)
    simp [List.countP_append, hzero]

/-- C8 (witness): two insertions of `info0` into the empty store leave
exactly one entry with that info. -/
theorem store_add_idempotent_witness :
    (PDFCertificateStore.mk []).certificates.countP (fun e => e.info == info0) ≤ 1 ∧
    ((((PDFCertificateStore.mk []).add EntryType.User info0).1.add
        EntryType.User info0).1).certificates.countP (fun e => e.info == info0) = 1 :=
  ⟨by decide, store_add_idempotent ⟨[]⟩ EntryType.User info0 (by decide)⟩

/-! ## C9: serialization round trip -/

/-- C9: deserializing the stream produced by `serialize` recovers the
original `PDFCertificateInfo` and the original `PDFCertificateStore`, and
the leading version integer written by the serializer is ignored by the
reader (any value decodes to the same result). -/
theorem serialize_round_trip :
    (∀ info : PDFCertificateInfo,
      deserializeInfo (serializeInfo info) = some (info, [])) ∧
    (∀ s : PDFCertificateStore,
      deserializeStore (serializeStore s) = some (s, [])) ∧
    (∀ (info : PDFCertificateInfo) (v : Int),
      deserializeInfo (StreamItem.intItem v :: serializeInfoBody info) =
        some (info, [])) := by
  refine ⟨fun info => rfl, fun s => ?_, fun info v => rfl⟩
  have h := des_entries s.certificates []
  rw [List.append_nil] at h
  simp only [serializeStore, deserializeStore, h]

/-! ## C10: failed DER parse leaves the store unchanged -/

/-- C10: when the byte array does not parse as a DER certificate (the parse
oracle returns `none`), `add(type, bytes)` returns `false` and the store is
unchanged. -/
theorem store_addData_parse_failure
    (parse : List UInt8 → Option PDFCertificateInfo) (s : PDFCertificateStore)
    (t : EntryType) (bytes : List UInt8) (h : parse bytes = none) :
    s.addData parse t bytes = (s, false) := by
  simp [PDFCertificateStore.addData, h]

/-- C10 (witness): a parse oracle rejecting everything leaves `oneStore`
unchanged and reports `false`. -/
theorem store_addData_parse_failure_witness :
    (fun (_ : List UInt8) => (none : Option PDFCertificateInfo)) [1, 2] = none ∧
    oneStore.addData (fun _ => none) EntryType.User [1, 2] = (oneStore, false) :=
  ⟨rfl, store_addData_parse_failure (fun _ => none) oneStore EntryType.User [1, 2] rfl⟩

/-! ## C6 and C7: `verifySignatures` result shape -/

/-- C6: with verification enabled on an AcroForm or XFA form,
`verifySignatures` returns exactly the per-field results of the signature
fields the form enumerates, one each, in enumeration order. -/
theorem verifySignatures_one_per_field
    (ev : HandlerKind → PDFFormField → PDFSignatureVerificationResult)
    (form : PDFForm) (parameters : Parameters)
    (h1 : parameters.enableVerification = true)
    (h2 : form.isAcroForm = true ∨ form.isXFAForm = true) :
    verifySignatures ev form parameters =
      (form.fields.filter (fun f => f.fieldType == FieldType.Signature)).map
        (verifyField ev) ∧
    (verifySignatures ev form parameters).length =
      (form.fields.filter (fun f => f.fieldType == FieldType.Signature)).length := by
  have hcond : (parameters.enableVerification &&
      (form.isAcroForm || form.isXFAForm)) = true := by
    rcases h2 with h2 | h2 <;> simp [h1, h2]
  have hmap : verifySignatures ev form parameters =
      (form.fields.filter (fun f => f.fieldType == FieldType.Signature)).map
        (verifyField ev) := by
    simp only [verifySignatures, hcond, if_true]
    rw [foldl_emplace_eq_map]
    simp
  exact ⟨hmap, by rw [hmap]; simp⟩

/-- C6 (witness): on a concrete AcroForm with one signature field and one
text field, exactly one result is returned, the one of the signature
field. -/
theorem verifySignatures_one_per_field_witness :
    params0.enableVerification = true ∧ form0.isAcroForm = true ∧
    verifySignatures ev0 form0 params0 =
      (form0.fields.filter (fun f => f.fieldType == FieldType.Signature)).map
        (verifyField ev0) ∧
    (verifySignatures ev0 form0 params0).length =
      (form0.fields.filter (fun f => f.fieldType == FieldType.Signature)).length :=
  ⟨rfl, rfl,
   (verifySignatures_one_per_field ev0 form0 params0 rfl (Or.inl rfl)).1,
   (verifySignatures_one_per_field ev0 form0 params0 rfl (Or.inl rfl)).2⟩

/-- C7: with verification disabled, or on a form that is neither an AcroForm
nor an XFA form, `verifySignatures` returns the empty list. -/
theorem verifySignatures_disabled_empty
    (ev : HandlerKind → PDFFormField → PDFSignatureVerificationResult)
    (form : PDFForm) (parameters : Parameters)
    (h : parameters.enableVerification = false ∨
      (form.isAcroForm = false ∧ form.isXFAForm = false)) :
    verifySignatures ev form parameters = [] := by
  have hcond : (parameters.enableVerification &&
      (form.isAcroForm || form.isXFAForm)) = false := by
    rcases h with h | ⟨ha, hx⟩
    · simp [h]
    · simp [ha, hx]
  simp [verifySignatures, hcond]

/-- C7 (witness): disabled verification yields no results on `form0`. -/
theorem verifySignatures_disabled_empty_witness :
    paramsOff.enableVerification = false ∧
    verifySignatures ev0 form0 paramsOff = [] :=
  ⟨rfl, verifySignatures_disabled_empty ev0 form0 paramsOff (Or.inl rfl)⟩

/-! ## C3, C4, C5: byte-range assembler -/

/-- Length of a byte slice whose bounds fit inside the file. -/
theorem sliceOf_length (F : List UInt8) (s e : Int) (h0 : 0 ≤ s) (h1 : s ≤ e)
    (h2 : e ≤ (F.length : Int)) :
    ((sliceOf F s e).length : Int) = e - s := by
  simp only [sliceOf, List.length_take, List.length_drop]
  omega

/-- A successful validation loop appends exactly the slices of the
nonzero-length ranges, in array order, and the output length grows by the
sum of their lengths. -/
theorem processRanges_eq_some (F : List UInt8) (ranges : List ByteRange) :
    ∀ (buf : List UInt8) (cov : ClosedIntervalSet) (buf' : List UInt8)
      (cov' : ClosedIntervalSet),
      processRanges F ranges buf cov = some (buf', cov') →
      buf' = buf ++ (ranges.filter (fun br => br.size != 0)).flatMap
          (fun br => sliceOf F br.offset (br.offset + br.size)) ∧
      (buf'.length : Int) = (buf.length : Int) +
          ((ranges.filter (fun br => br.size != 0)).map (fun br => br.size)).sum := by
  induction ranges with
  | nil =>
      intro buf cov buf' cov' h
      simp only [processRanges, Option.some.injEq, Prod.mk.injEq] at h
      simp [h.1.symm]
  | cons br rest ih =>
      intro buf cov buf' cov' h
      simp only [processRanges] at h
      split_ifs at h with h1 h2
      · -- zero-length range: skipped, and filtered out of the specification
        have hsz : br.size = 0 := by omega
        have := ih buf cov buf' cov' h
        simpa [hsz] using this
      · -- range kept: bounds hold, slice appended
        have hsz : br.size ≠ 0 := by omega
        obtain ⟨hb, hl⟩ := ih _ _ _ _ h
        have hlen : ((sliceOf F br.offset (br.offset + br.size)).length : Int) =
            br.size := by
          rw [sliceOf_length F br.offset (br.offset + br.size) (by omega) (by omega)
            (by omega)]
          omega
        constructor
        · rw [hb]
          simp [hsz, List.append_assoc]
        · have hfil : (br :: rest).filter (fun b => b.size != 0) =
              br :: rest.filter (fun b => b.size != 0) := by
            simp [List.filter_cons, hsz]
          rw [hfil, List.map_cons, List.sum_cons, hl]
          have happ : ((buf ++ sliceOf F br.offset (br.offset + br.size)).length : Int) =
              (buf.length : Int) + br.size := by
            rw [List.length_append]
            push_cast
            rw [hlen]
          rw [happ]
          omega

/-- A nonzero-length range failing the bounds check makes the validation
loop fail, wherever it sits in the array. -/
theorem processRanges_bad (F : List UInt8) (br : ByteRange)
    (hsz : br.size ≠ 0)
    (hbad : br.offset < 0 ∨ br.offset + br.size > (F.length : Int)) :
    ∀ (ranges : List ByteRange), br ∈ ranges → ∀ buf cov,
      processRanges F ranges buf cov = none := by
  intro ranges
  induction ranges with
  | nil => intro h; cases h
  | cons a rest ih =>
      intro hmem buf cov
      simp only [processRanges]
      rcases List.mem_cons.mp hmem with heq | hmem'
      · subst heq
        split_ifs with h1 h2
        · omega
        · rfl
        · exfalso; omega
      · split_ifs with h1 h2
        · exact ih hmem' buf cov
        · rfl
        · exact ih hmem' _ _

/-- C3: whenever `getSignedDataBuffer` produces a buffer, the buffer is the
concatenation of `F[offset .. offset+length]` over the nonzero-length byte
ranges in array order, and its length is the sum of those lengths. -/
theorem getSignedDataBuffer_concat (F : List UInt8) (sig : PDFSignature)
    (r0 r' : PDFSignatureVerificationResult) (buf : List UInt8)
    (h : getSignedDataBuffer F sig r0 = (r', some buf)) :
    buf = (sig.byteRanges.filter (fun br => br.size != 0)).flatMap
        (fun br => sliceOf F br.offset (br.offset + br.size)) ∧
    (buf.length : Int) =
      ((sig.byteRanges.filter (fun br => br.size != 0)).map
        (fun br => br.size)).sum := by
  simp only [getSignedDataBuffer] at h
  split_ifs at h with hsum
  · exact absurd h (by simp)
  · cases hpr : processRanges F sig.byteRanges [] [] with
    | none => rw [hpr] at h; exact absurd h (by simp)
    | some pr =>
        obtain ⟨buf0, cov⟩ := pr
        rw [hpr] at h
        have hbuf : buf0 = buf := by
          have := congrArg Prod.snd h
          simpa using this
        subst hbuf
        have hs := processRanges_eq_some F sig.byteRanges [] [] buf0 cov hpr
        simpa using hs

/-- C3 (witness): on `fileC3` and `sigC3` the assembled buffer is the single
two-byte slice and has length 2. -/
theorem getSignedDataBuffer_concat_witness :
    getSignedDataBuffer fileC3 sigC3 (initResult 0 "") =
      (initResult 0 "", some [5, 6]) ∧
    ([5, 6] : List UInt8) =
      (sigC3.byteRanges.filter (fun br => br.size != 0)).flatMap
        (fun br => sliceOf fileC3 br.offset (br.offset + br.size)) ∧
    (([5, 6] : List UInt8).length : Int) =
      ((sigC3.byteRanges.filter (fun br => br.size != 0)).map
        (fun br => br.size)).sum :=
  ⟨rfl,
   (getSignedDataBuffer_concat fileC3 sigC3 (initResult 0 "") (initResult 0 "")
      [5, 6] rfl).1,
   (getSignedDataBuffer_concat fileC3 sigC3 (initResult 0 "") (initResult 0 "")
      [5, 6] rfl).2⟩

/-- C5: a nonzero-length byte range with `offset < 0` or
`offset + length > |F|` makes `getSignedDataBuffer` record
`Error_Signature_DataCoveredBySignatureMissing` and return no buffer. -/
theorem getSignedDataBuffer_out_of_bounds (F : List UInt8) (sig : PDFSignature)
    (r0 : PDFSignatureVerificationResult) (br : ByteRange)
    (hmem : br ∈ sig.byteRanges) (hsz : br.size ≠ 0)
    (hbad : br.offset < 0 ∨ br.offset + br.size > (F.length : Int)) :
    getSignedDataBuffer F sig r0 =
      (r0.addSignatureDataCoveredBySignatureMissingError, none) := by
  simp only [getSignedDataBuffer]
  split_ifs with hsum
  · rfl
  · rw [processRanges_bad F br hsz hbad sig.byteRanges hmem [] []]

/-- C5 (witness): the range `(0, 5)` does not fit in the two-byte `fileC3`,
so the assembler fails with the data-missing error. -/
theorem getSignedDataBuffer_out_of_bounds_witness :
    (⟨0, 5⟩ : ByteRange) ∈ sigC5.byteRanges ∧
    (⟨0, 5⟩ : ByteRange).size ≠ 0 ∧
    ((⟨0, 5⟩ : ByteRange).offset < 0 ∨
      (⟨0, 5⟩ : ByteRange).offset + (⟨0, 5⟩ : ByteRange).size >
        (fileC3.length : Int)) ∧
    getSignedDataBuffer fileC3 sigC5 (initResult 0 "") =
      ((initResult 0 "").addSignatureDataCoveredBySignatureMissingError, none) :=
  ⟨by simp [sigC5], by decide, Or.inr (by decide),
   getSignedDataBuffer_out_of_bounds fileC3 sigC5 (initResult 0 "") ⟨0, 5⟩
     (by simp [sigC5]) (by decide) (Or.inr (by decide))⟩

/-- C4: on the successful path, `getSignedDataBuffer` appends the
not-covered-bytes warning exactly when the merged coverage set (the recorded
ranges extended by the located hex contents window) does not cover
`[0, |F| - 1]`, and the count it reports is `|F|` minus the total covered
length of that merged set. -/
theorem getSignedDataBuffer_warning (F : List UInt8) (sig : PDFSignature)
    (r0 r' : PDFSignatureVerificationResult) (buf buf0 : List UInt8)
    (cov : ClosedIntervalSet)
    (hrun : getSignedDataBuffer F sig r0 = (r', some buf))
    (hpr : processRanges F sig.byteRanges [] [] = some (buf0, cov)) :
    (isCovered (hexSearchCoverage F sig.contents cov) 0 ((F.length : Int) - 1)
        = false ↔ r'.warnings ≠ r0.warnings) ∧
    (isCovered (hexSearchCoverage F sig.contents cov) 0 ((F.length : Int) - 1)
        = false →
      r' = r0.addSignatureNotCoveredBytesWarning
        ((F.length : Int) - getTotalLength (hexSearchCoverage F sig.contents cov)) ∧
      r'.flags VFlag.Warning_Signature_NotCoveredBytes = true) := by
  simp only [getSignedDataBuffer] at hrun
  split_ifs at hrun with hsum
  · exact absurd hrun (by simp)
  · rw [hpr] at hrun
    have hr' : r' = if isCovered (hexSearchCoverage F sig.contents cov) 0
        ((F.length : Int) - 1) then r0
      else r0.addSignatureNotCoveredBytesWarning
        ((F.length : Int) - getTotalLength (hexSearchCoverage F sig.contents cov)) := by
      have := congrArg Prod.fst hrun
      simpa using this.symm
    cases hcov : isCovered (hexSearchCoverage F sig.contents cov) 0
        ((F.length : Int) - 1) with
    | true =>
        rw [hcov] at hr'
        simp only [if_true] at hr'
        subst hr'
        simp
    | false =>
        rw [hcov] at hr'
        simp only [Bool.false_eq_true, if_false] at hr'
        subst hr'
        refine ⟨⟨fun _ => ?_, fun _ => rfl⟩, fun _ => ⟨rfl, by
          simp [PDFSignatureVerificationResult.addSignatureNotCoveredBytesWarning,
            PDFSignatureVerificationResult.addWarningFlag]⟩⟩
        intro heq
        have := congrArg List.length heq
        simp [PDFSignatureVerificationResult.addSignatureNotCoveredBytesWarning,
          PDFSignatureVerificationResult.addWarningFlag] at this

/-! ## C1: the `OK` flag invariant -/

/-- Two booleans agreeing as propositions are equal. -/
theorem bool_ext {a b : Bool} (h : a = true ↔ b = true) : a = b := by
  cases a <;> cases b <;> simp_all

/-- Flag membership after `setFlag`. -/
theorem setFlag_flags (r : PDFSignatureVerificationResult) (f g : VFlag) :
    (r.setFlag f).flags g = true ↔ f = g ∨ r.flags g = true := by
  simp only [PDFSignatureVerificationResult.setFlag]
  split_ifs with h
  · simp [h]
  · exact ⟨fun hh => Or.inr hh, fun hh => hh.elim (fun he => absurd he.symm h) id⟩

/-- Flag membership after `addErrorFlag`. -/
theorem addErrorFlag_flags (r : PDFSignatureVerificationResult) (f : VFlag)
    (m : VMsg) (g : VFlag) :
    (r.addErrorFlag f m).flags g = true ↔ f = g ∨ r.flags g = true := by
  simp only [PDFSignatureVerificationResult.addErrorFlag]
  split_ifs with h
  · simp [h]
  · exact ⟨fun hh => Or.inr hh, fun hh => hh.elim (fun he => absurd he.symm h) id⟩

/-- Flag membership after `addWarningFlag`. -/
theorem addWarningFlag_flags (r : PDFSignatureVerificationResult) (f : VFlag)
    (m : VMsg) (g : VFlag) :
    (r.addWarningFlag f m).flags g = true ↔ f = g ∨ r.flags g = true := by
  simp only [PDFSignatureVerificationResult.addWarningFlag]
  split_ifs with h
  · simp [h]
  · exact ⟨fun hh => Or.inr hh, fun hh => hh.elim (fun he => absurd he.symm h) id⟩

/-- Flag membership after one engine operation. -/
theorem applyOp_flags (r : PDFSignatureVerificationResult) (op : ResultOp)
    (g : VFlag) :
    (applyOp r op).flags g = true ↔ opFlagOf op = some g ∨ r.flags g = true := by
  cases op <;>
    simp [applyOp, opFlagOf,
      PDFSignatureVerificationResult.addNoHandlerError,
      PDFSignatureVerificationResult.addInvalidCertificateError,
      PDFSignatureVerificationResult.addNoSignaturesError,
      PDFSignatureVerificationResult.addCertificateMissingError,
      PDFSignatureVerificationResult.addCertificateGenericError,
      PDFSignatureVerificationResult.addCertificateExpiredError,
      PDFSignatureVerificationResult.addCertificateSelfSignedError,
      PDFSignatureVerificationResult.addCertificateSelfSignedInChainError,
      PDFSignatureVerificationResult.addCertificateTrustedNotFoundError,
      PDFSignatureVerificationResult.addCertificateRevokedError,
      PDFSignatureVerificationResult.addCertificateOtherError,
      PDFSignatureVerificationResult.addInvalidSignatureError,
      PDFSignatureVerificationResult.addSignatureNoSignaturesFoundError,
      PDFSignatureVerificationResult.addSignatureCertificateMissingError,
      PDFSignatureVerificationResult.addSignatureDigestFailureError,
      PDFSignatureVerificationResult.addSignatureDataOtherError,
      PDFSignatureVerificationResult.addSignatureDataCoveredBySignatureMissingError,
      PDFSignatureVerificationResult.addSignatureNotCoveredBytesWarning,
      PDFSignatureVerificationResult.addCertificateInfo,
      addErrorFlag_flags, addWarningFlag_flags]

/-- Flag membership after a list of engine operations. -/
theorem applyOps_flags (ops : List ResultOp) (r : PDFSignatureVerificationResult)
    (g : VFlag) :
    (applyOps ops r).flags g = true ↔
      (∃ op ∈ ops, opFlagOf op = some g) ∨ r.flags g = true := by
  induction ops generalizing r with
  | nil => simp [applyOps]
  | cons op ops ih =>
      have hstep : applyOps (op :: ops) r = applyOps ops (applyOp r op) := rfl
      rw [hstep, ih, applyOp_flags]
      constructor
      · rintro (hex | (hop | hr))
        · obtain ⟨w, hw, hwf⟩ := hex
          exact Or.inl ⟨w, List.mem_cons_of_mem _ hw, hwf⟩
        · exact Or.inl ⟨op, List.mem_cons_self _ _, hop⟩
        · exact Or.inr hr
      · rintro (⟨w, hw, hwf⟩ | hr)
        · rcases List.mem_cons.mp hw with heq | hw'
          · subst heq
            exact Or.inr (Or.inl hwf)
          · exact Or.inl ⟨w, hw', hwf⟩
        · exact Or.inr (Or.inr hr)

/-- A certificate-phase operation only sets certificate-group error flags. -/
theorem certOp_flagMem (op : ResultOp) (f : VFlag) (h : certPhaseOp op = true)
    (hf : opFlagOf op = some f) :
    f ∈ PDFSignatureVerificationResult.certErrorFlags := by
  cases op <;> simp_all [certPhaseOp, opFlagOf,
    PDFSignatureVerificationResult.certErrorFlags]

/-- A signature-phase operation only sets signature-group error flags or the
not-covered-bytes warning flag. -/
theorem sigOp_flagMem (op : ResultOp) (f : VFlag) (h : sigPhaseOp op = true)
    (hf : opFlagOf op = some f) :
    f ∈ PDFSignatureVerificationResult.sigErrorFlags ∨
      f = VFlag.Warning_Signature_NotCoveredBytes := by
  cases op <;> simp_all [sigPhaseOp, opFlagOf,
    PDFSignatureVerificationResult.sigErrorFlags]

/-- C1: for every engine run (arbitrary certificate-phase and
signature-phase operation traces over their vocabularies, which includes
arbitrary appended warnings), the final result has `OK` set if and only if
`Certificate_OK` and `Signature_OK` are both set and no certificate-group or
signature-group error flag is set.  In particular, warnings never affect
`OK`. -/
theorem engine_ok_iff (certOps sigOps : List ResultOp) (ref : Nat)
    (name : String)
    (hc : ∀ op ∈ certOps, certPhaseOp op = true)
    (hs : ∀ op ∈ sigOps, sigPhaseOp op = true) :
    ((runEngine certOps sigOps (initResult ref name)).flags VFlag.OK = true ↔
      ((runEngine certOps sigOps (initResult ref name)).flags
          VFlag.Certificate_OK = true ∧
       (runEngine certOps sigOps (initResult ref name)).flags
          VFlag.Signature_OK = true ∧
       (runEngine certOps sigOps (initResult ref name)).hasCertificateError
          = false ∧
       (runEngine certOps sigOps (initResult ref name)).hasSignatureError
          = false)) := by
  simp only [runEngine]
  set r1 := applyOps certOps (initResult ref name) with hr1
  set r2 := if r1.hasCertificateError then r1
    else r1.setFlag VFlag.Certificate_OK with hr2
  set r3 := applyOps sigOps r2 with hr3
  set r4 := if r3.hasSignatureError then r3
    else r3.setFlag VFlag.Signature_OK with hr4
  have c1 : ∀ g, r1.flags g = true ↔ ∃ op ∈ certOps, opFlagOf op = some g := by
    intro g
    rw [hr1, applyOps_flags]
    simp [initResult]
  have prodCert : ∀ g, (∃ op ∈ certOps, opFlagOf op = some g) →
      g ∈ PDFSignatureVerificationResult.certErrorFlags := by
    rintro g ⟨op, hop, hof⟩
    exact certOp_flagMem op g (hc op hop) hof
  have prodSig : ∀ g, (∃ op ∈ sigOps, opFlagOf op = some g) →
      g ∈ PDFSignatureVerificationResult.sigErrorFlags ∨
        g = VFlag.Warning_Signature_NotCoveredBytes := by
    rintro g ⟨op, hop, hof⟩
    exact sigOp_flagMem op g (hs op hop) hof
  have c1f : ∀ g, g ∉ PDFSignatureVerificationResult.certErrorFlags →
      r1.flags g = false := by
    intro g hg
    rw [Bool.eq_false_iff]
    intro hx
    exact hg (prodCert g ((c1 g).mp hx))
  have c2 : ∀ g, r2.flags g = true ↔
      ((r1.hasCertificateError = false ∧ g = VFlag.Certificate_OK) ∨
        r1.flags g = true) := by
    intro g
    rw [hr2]
    by_cases hA : r1.hasCertificateError = true
    · simp [hA]
    · rw [Bool.not_eq_true] at hA
      simp [hA, setFlag_flags]
      tauto
  have c3 : ∀ g, r3.flags g = true ↔
      ((∃ op ∈ sigOps, opFlagOf op = some g) ∨ r2.flags g = true) := by
    intro g
    rw [hr3, applyOps_flags]
  have c4 : ∀ g, r4.flags g = true ↔
      ((r3.hasSignatureError = false ∧ g = VFlag.Signature_OK) ∨
        r3.flags g = true) := by
    intro g
    rw [hr4]
    by_cases hB : r3.hasSignatureError = true
    · simp [hB]
    · rw [Bool.not_eq_true] at hB
      simp [hB, setFlag_flags]
      tauto
  have c5 : ∀ g, (r4.validate).flags g = true ↔
      ((r4.flags VFlag.Certificate_OK = true ∧
        r4.flags VFlag.Signature_OK = true ∧ g = VFlag.OK) ∨
        r4.flags g = true) := by
    intro g
    unfold PDFSignatureVerificationResult.validate
      PDFSignatureVerificationResult.isCertificateValid
      PDFSignatureVerificationResult.isSignatureValid
    by_cases h1 : r4.flags VFlag.Certificate_OK = true <;>
      by_cases h2 : r4.flags VFlag.Signature_OK = true <;>
        simp [h1, h2, setFlag_flags] <;> tauto
  have r2COK : r2.flags VFlag.Certificate_OK = true ↔
      r1.hasCertificateError = false := by
    rw [c2]
    have hf : r1.flags VFlag.Certificate_OK = false := c1f _ (by decide)
    simp [hf]
  have r3COK : r3.flags VFlag.Certificate_OK = true ↔
      r1.hasCertificateError = false := by
    rw [c3]
    constructor
    · rintro (hprod | h)
      · rcases prodSig _ hprod with hmem | hw
        · exact absurd hmem (by decide)
        · exact absurd hw (by decide)
      · exact r2COK.mp h
    · intro h
      exact Or.inr (r2COK.mpr h)
  have r4COK : r4.flags VFlag.Certificate_OK = true ↔
      r1.hasCertificateError = false := by
    rw [c4]
    constructor
    · rintro (⟨_, hh⟩ | h)
      · exact absurd hh (by decide)
      · exact r3COK.mp h
    · intro h
      exact Or.inr (r3COK.mpr h)
  have r3SOK : r3.flags VFlag.Signature_OK = true ↔ False := by
    rw [c3, c2]
    constructor
    · rintro (hprod | (⟨_, hh⟩ | h))
      · rcases prodSig _ hprod with hmem | hw
        · exact absurd hmem (by decide)
        · exact absurd hw (by decide)
      · exact absurd hh (by decide)
      · rw [c1f VFlag.Signature_OK (by decide)] at h
        exact absurd h (by simp)
    · exact False.elim
  have r4SOK : r4.flags VFlag.Signature_OK = true ↔
      r3.hasSignatureError = false := by
    rw [c4]
    constructor
    · rintro (⟨hB, _⟩ | h)
      · exact hB
      · exact absurd (r3SOK.mp h) id
    · intro h
      exact Or.inl ⟨h, rfl⟩
  have r4OK : r4.flags VFlag.OK = true ↔ False := by
    rw [c4, c3, c2]
    constructor
    · rintro (⟨_, hh⟩ | (hprod | (⟨_, hh⟩ | h)))
      · exact absurd hh (by decide)
      · rcases prodSig _ hprod with hmem | hw
        · exact absurd hmem (by decide)
        · exact absurd hw (by decide)
      · exact absurd hh (by decide)
      · rw [c1f VFlag.OK (by decide)] at h
        exact absurd h (by simp)
    · exact False.elim
  have hdisC : ∀ f ∈ PDFSignatureVerificationResult.certErrorFlags,
      f ∉ PDFSignatureVerificationResult.sigErrorFlags ∧
      f ≠ VFlag.Warning_Signature_NotCoveredBytes ∧ f ≠ VFlag.OK ∧
      f ≠ VFlag.Certificate_OK ∧ f ≠ VFlag.Signature_OK := by decide
  have hdisS : ∀ f ∈ PDFSignatureVerificationResult.sigErrorFlags,
      f ∉ PDFSignatureVerificationResult.certErrorFlags ∧ f ≠ VFlag.OK ∧
      f ≠ VFlag.Certificate_OK ∧ f ≠ VFlag.Signature_OK := by decide
  have fcertflag : ∀ f ∈ PDFSignatureVerificationResult.certErrorFlags,
      ((r4.validate).flags f = true ↔ r1.flags f = true) := by
    intro f hf
    obtain ⟨hns, hnw, hno, hnc, hnsok⟩ := hdisC f hf
    rw [c5 f, c4 f, c3 f, c2 f]
    constructor
    · rintro (⟨_, _, hh⟩ | (⟨_, hh⟩ | (hprod | (⟨_, hh⟩ | h))))
      · exact absurd hh hno
      · exact absurd hh hnsok
      · rcases prodSig f hprod with hmem | hw
        · exact absurd hmem hns
        · exact absurd hw hnw
      · exact absurd hh hnc
      · exact h
    · intro h
      exact Or.inr (Or.inr (Or.inr (Or.inr h)))
  have fsigflag : ∀ f ∈ PDFSignatureVerificationResult.sigErrorFlags,
      ((r4.validate).flags f = true ↔ r3.flags f = true) := by
    intro f hf
    obtain ⟨_, hno, _, hnsok⟩ := hdisS f hf
    rw [c5 f, c4 f]
    constructor
    · rintro (⟨_, _, hh⟩ | (⟨_, hh⟩ | h))
      · exact absurd hh hno
      · exact absurd hh hnsok
      · exact h
    · intro h
      exact Or.inr (Or.inr h)
  have fhce : (r4.validate).hasCertificateError = r1.hasCertificateError := by
    apply bool_ext
    simp only [PDFSignatureVerificationResult.hasCertificateError,
      List.any_eq_true]
    constructor
    · rintro ⟨f, hf, h⟩
      exact ⟨f, hf, (fcertflag f hf).mp h⟩
    · rintro ⟨f, hf, h⟩
      exact ⟨f, hf, (fcertflag f hf).mpr h⟩
  have c3certflag : ∀ f ∈ PDFSignatureVerificationResult.certErrorFlags,
      (r3.flags f = true ↔ r1.flags f = true) := by
    intro f hf
    obtain ⟨hns, hnw, _, hnc, _⟩ := hdisC f hf
    rw [c3 f, c2 f]
    constructor
    · rintro (hprod | (⟨_, hh⟩ | h))
      · rcases prodSig f hprod with hmem | hw
        · exact absurd hmem hns
        · exact absurd hw hnw
      · exact absurd hh hnc
      · exact h
    · intro h
      exact Or.inr (Or.inr h)
  have c3sigflag : ∀ f ∈ PDFSignatureVerificationResult.sigErrorFlags,
      ((r4.validate).flags f = true ↔ r3.flags f = true) := fsigflag
  have fhse : (r4.validate).hasSignatureError = r3.hasSignatureError := by
    apply bool_ext
    simp only [PDFSignatureVerificationResult.hasSignatureError,
      List.any_eq_true]
    constructor
    · rintro ⟨f, hf, h⟩
      exact ⟨f, hf, (fsigflag f hf).mp h⟩
    · rintro ⟨f, hf, h⟩
      exact ⟨f, hf, (fsigflag f hf).mpr h⟩
  have fOK : (r4.validate).flags VFlag.OK = true ↔
      (r1.hasCertificateError = false ∧ r3.hasSignatureError = false) := by
    rw [c5]
    constructor
    · rintro (⟨h1, h2, _⟩ | h)
      · exact ⟨r4COK.mp h1, r4SOK.mp h2⟩
      · exact absurd (r4OK.mp h) id
    · rintro ⟨hA, hB⟩
      exact Or.inl ⟨r4COK.mpr hA, r4SOK.mpr hB, rfl⟩
  have fCOK : (r4.validate).flags VFlag.Certificate_OK = true ↔
      r1.hasCertificateError = false := by
    rw [c5]
    constructor
    · rintro (⟨_, _, hh⟩ | h)
      · exact absurd hh (by decide)
      · exact r4COK.mp h
    · intro h
      exact Or.inr (r4COK.mpr h)
  have fSOK : (r4.validate).flags VFlag.Signature_OK = true ↔
      r3.hasSignatureError = false := by
    rw [c5]
    constructor
    · rintro (⟨_, _, hh⟩ | h)
      · exact absurd hh (by decide)
      · exact r4SOK.mp h
    · intro h
      exact Or.inr (r4SOK.mpr h)
  rw [fhce, fhse]
  constructor
  · intro h
    obtain ⟨hA, hB⟩ := fOK.mp h
    exact ⟨fCOK.mpr hA, fSOK.mpr hB, hA, hB⟩
  · rintro ⟨_, _, hA, hB⟩
    exact fOK.mpr ⟨hA, hB⟩

/-- C1 (witness): a run whose certificate phase records an expiry error and
whose signature phase appends only a warning satisfies the invariant. -/
theorem engine_ok_iff_witness :
    (∀ op ∈ [ResultOp.opCertificateExpired,
        ResultOp.opAddCertificateInfo info0], certPhaseOp op = true) ∧
    (∀ op ∈ [ResultOp.opWarnNotCoveredBytes 10], sigPhaseOp op = true) ∧
    ((runEngine [ResultOp.opCertificateExpired,
        ResultOp.opAddCertificateInfo info0]
        [ResultOp.opWarnNotCoveredBytes 10] (initResult 0 "")).flags
        VFlag.OK = true ↔
      ((runEngine [ResultOp.opCertificateExpired,
          ResultOp.opAddCertificateInfo info0]
          [ResultOp.opWarnNotCoveredBytes 10] (initResult 0 "")).flags
          VFlag.Certificate_OK = true ∧
       (runEngine [ResultOp.opCertificateExpired,
          ResultOp.opAddCertificateInfo info0]
          [ResultOp.opWarnNotCoveredBytes 10] (initResult 0 "")).flags
          VFlag.Signature_OK = true ∧
       (runEngine [ResultOp.opCertificateExpired,
          ResultOp.opAddCertificateInfo info0]
          [ResultOp.opWarnNotCoveredBytes 10]
          (initResult 0 "")).hasCertificateError = false ∧
       (runEngine [ResultOp.opCertificateExpired,
          ResultOp.opAddCertificateInfo info0]
          [ResultOp.opWarnNotCoveredBytes 10]
          (initResult 0 "")).hasSignatureError = false)) :=
  ⟨by decide, by decide,
   engine_ok_iff [ResultOp.opCertificateExpired,
      ResultOp.opAddCertificateInfo info0]
    [ResultOp.opWarnNotCoveredBytes 10] 0 "" (by decide) (by decide)⟩

/-- C4 (witness): on `fileC4` and `sigC4` the coverage misses two bytes, and
the warning carries the count 2 = 4 - 2. -/
theorem getSignedDataBuffer_warning_witness :
    getSignedDataBuffer fileC4 sigC4 (initResult 0 "") =
      ((initResult 0 "").addSignatureNotCoveredBytesWarning 2, some [1, 2]) ∧
    processRanges fileC4 sigC4.byteRanges [] [] = some ([1, 2], [(0, 1)]) ∧
    (isCovered (hexSearchCoverage fileC4 sigC4.contents [(0, 1)]) 0
        ((fileC4.length : Int) - 1) = false ↔
      ((initResult 0 "").addSignatureNotCoveredBytesWarning 2).warnings ≠
        (initResult 0 "").warnings) :=
  ⟨rfl, rfl,
   (getSignedDataBuffer_warning fileC4 sigC4 (initResult 0 "")
      ((initResult 0 "").addSignatureNotCoveredBytesWarning 2) [1, 2] [1, 2]
      [(0, 1)] rfl rfl).1⟩

end PdfForQt
